import Mathlib

/- Verification development for the telegram-translator repository.

   The definitions below are a shallow embedding of the session and message
   orchestration engine: the scheduled-send subsystem, the keyword
   auto-responder, the ingest message pipeline, and the client socket layer.
   Frontend TypeScript (src/src/components, src/src/hooks/useSocket.ts,
   src/src/types/index.ts) and the SQL schemas (src/backend/database,
   SETUP.md, ARCHITECTURE.md) are embedded directly from the source.
   Backend components that the repository ships only as documentation
   (scheduler_service.py, the auto-responder engine, the FastAPI routes and
   the WebSocket server) are modelled from the specification; each such
   definition carries a doc comment saying so. -/

deriving instance DecidableEq for Except

/-! Scheduled-send subsystem: data model from ScheduledMessage in
    src/src/types/index.ts lines 89-99 and the scheduled_messages table
    (SETUP.md lines 393-407, ARCHITECTURE.md lines 1261-1274). -/

/-- Status abstraction over the two boolean columns of scheduled_messages. -/
inductive SchedStatus
  | Pending
  | Sent
  | Cancelled
deriving DecidableEq

/-- Scheduled message record, fields from the ScheduledMessage interface in
src/src/types/index.ts (is_sent, is_cancelled, sent_at, cancelled_at) and the
scheduled_messages table of the feature schema. Timestamps are Nat. -/
structure ScheduledMessage where
  id : Nat
  conversation_id : Nat
  message_text : String
  scheduled_at : Nat
  created_at : Nat
  is_sent : Bool
  is_cancelled : Bool
  sent_at : Option Nat
  cancelled_at : Option Nat
deriving DecidableEq

/-- Derived status of a scheduled message record: Pending iff neither
terminal flag is set. -/
def ScheduledMessage.status (m : ScheduledMessage) : SchedStatus :=
  if m.is_cancelled then SchedStatus.Cancelled
  else if m.is_sent then SchedStatus.Sent
  else SchedStatus.Pending

/-- Error taxonomy relevant to the scheduler API, from spec section 7
(StateConflictError, NotFoundError). -/
inductive SchedError
  | stateConflict
  | notFound
deriving DecidableEq

/-- Modelled from the spec: backend/scheduler_service.py is not under src/.
The periodic sweep fires a record only when it is still Pending and due
(fire_at less or equal now); on success it marks the record Sent and stamps
sent_at. The status field is treated as a single-writer compare-and-set, so
a record that is no longer Pending is not fired. -/
def sweepFire (now : Nat) (m : ScheduledMessage) : Except SchedError ScheduledMessage :=
  if m.status = SchedStatus.Pending ∧ m.scheduled_at ≤ now then
    Except.ok { m with is_sent := true, sent_at := some now }
  else Except.error SchedError.stateConflict

/-- Modelled from the spec: the cancel transition of the scheduled-send
subsystem (backend route DELETE /api/scheduled-messages/{id} is not under
src/). Cancel is a checked transition allowed only from Pending; on an
already-terminal record it returns StateConflictError. Covers both the
manual cancel and the auto-cancel-on-reply path. -/
def cancelScheduled (now : Nat) (m : ScheduledMessage) : Except SchedError ScheduledMessage :=
  if m.status = SchedStatus.Pending then
    Except.ok { m with is_cancelled := true, cancelled_at := some now }
  else Except.error SchedError.stateConflict

/-- Modelled from the spec: store-level cancel as invoked by
cancelScheduledMessage in src/src/components/Chat/ChatWindow.tsx lines
323-333 (the handler calls the backend route, which is not under src/).
Returns the API result together with the resulting persistent store; on any
error the store is returned verbatim, so nothing is mutated. -/
def cancelScheduledMessage (now msgId : Nat) (store : List ScheduledMessage) :
    Except SchedError Unit × List ScheduledMessage :=
  match store.find? (fun m => m.id == msgId) with
  | none => (Except.error SchedError.notFound, store)
  | some m =>
    if m.status = SchedStatus.Pending then
      (Except.ok (),
        store.map (fun x =>
          if x.id == msgId then { x with is_cancelled := true, cancelled_at := some now } else x))
    else (Except.error SchedError.stateConflict, store)

/-- Modelled from the spec: create(conversationId, text, delay) of the
scheduled-send subsystem computes fire_at = now + delay and persists the
record with status Pending (backend route POST /api/scheduled-messages is
not under src/). -/
def createScheduled (now newId cid : Nat) (text : String) (delay : Nat) : ScheduledMessage :=
  { id := newId
    conversation_id := cid
    message_text := text
    scheduled_at := now + delay
    created_at := now
    is_sent := false
    is_cancelled := false
    sent_at := none
    cancelled_at := none }

/-- One successful transition of a scheduled message record: either the
sweep fires it or a (manual or automatic) cancel succeeds. -/
def SchedStep (m m' : ScheduledMessage) : Prop :=
  (∃ now, sweepFire now m = Except.ok m') ∨ (∃ now, cancelScheduled now m = Except.ok m')

/-- Reflexive-transitive closure of SchedStep. -/
def SchedReachable : ScheduledMessage → ScheduledMessage → Prop :=
  Relation.ReflTransGen SchedStep

/-! Frontend schedule modal, from handleSchedule in
    src/src/components/Modals/ScheduleMessageModal.tsx lines 23-53. -/

/-- Validation errors raised by handleSchedule, in source order. -/
inductive ScheduleUiError
  | noConversation
  | emptyText
  | badDelay
deriving DecidableEq

/-- Payload handed to scheduledMessagesAPI.createScheduledMessage on the
success path of handleSchedule. -/
structure SchedulePayload where
  conversationId : Nat
  messageText : String
  daysDelay : Int
deriving DecidableEq

/-- Whitespace test matching the characters stripped by the JavaScript
String.prototype.trim on the texts this code handles. -/
def isWsChar (c : Char) : Bool :=
  c = ' ' ∨ c = '\t' ∨ c = '\n' ∨ c = '\r'

/-- A string is blank iff JavaScript trim() yields the empty string, i.e.
every character is whitespace. -/
def isBlank (s : String) : Bool :=
  s.data.all isWsChar

/-- JavaScript-style trim on both ends, used where the source calls
String.prototype.trim and keeps the result. -/
def trimStr (s : String) : String :=
  String.mk (((s.data.dropWhile isWsChar).reverse.dropWhile isWsChar).reverse)

/-- Embedding of handleSchedule from ScheduleMessageModal.tsx: rejects a
missing conversation, a blank message text, and daysDelay below 1 (in that
source order); otherwise produces the create payload passed to the API. -/
def handleSchedule (conversationId : Option Nat) (messageText : String) (daysDelay : Int) :
    Except ScheduleUiError SchedulePayload :=
  match conversationId with
  | none => Except.error ScheduleUiError.noConversation
  | some cid =>
    if isBlank messageText then Except.error ScheduleUiError.emptyText
    else if daysDelay < 1 then Except.error ScheduleUiError.badDelay
    else Except.ok { conversationId := cid, messageText := messageText, daysDelay := daysDelay }

/-! Auto-responder engine: rule table from src/backend/database/schema.sql
    lines 121-138, log table from lines 140-153; evaluation order and
    first-match policy from spec section 4.4. -/

/-- Auto-responder rule, fields from the auto_responder_rules table. -/
structure AutoResponderRule where
  id : Nat
  user_id : Nat
  name : String
  keywords : List String
  response_text : String
  media_type : Option String
  media_file_path : Option String
  is_active : Bool
  priority : Int
deriving DecidableEq

/-- Evaluation order of rules: descending priority, then ascending rule id
(idx_auto_responder_rules_priority sorts priority DESC; the id tie-break is
the deterministic order required by spec section 4.4). -/
def RuleOrder (r1 r2 : AutoResponderRule) : Prop :=
  r2.priority < r1.priority ∨ (r1.priority = r2.priority ∧ r1.id ≤ r2.id)

instance : DecidableRel RuleOrder := fun r1 r2 =>
  inferInstanceAs (Decidable (r2.priority < r1.priority ∨ (r1.priority = r2.priority ∧ r1.id ≤ r2.id)))

instance : IsTotal AutoResponderRule RuleOrder :=
  ⟨by intro a b; unfold RuleOrder; omega⟩

instance : IsTrans AutoResponderRule RuleOrder :=
  ⟨by intro a b c h1 h2; unfold RuleOrder at *; omega⟩

/-- ASCII lowercase conversion of one character, the case folding used for
keyword matching. -/
def lowerChar (c : Char) : Char :=
  if 65 ≤ c.toNat ∧ c.toNat ≤ 90 then Char.ofNat (c.toNat + 32) else c

/-- Lowercase a character list. -/
def lowerStr (s : List Char) : List Char := s.map lowerChar

/-- Case-insensitive substring test: keyword kw occurs in text. -/
def kwInText (text kw : String) : Bool :=
  decide (lowerStr kw.data <:+: lowerStr text.data)

/-- A rule matches a text iff some of its keywords is a case-insensitive
substring of the text. -/
def ruleMatches (text : String) (r : AutoResponderRule) : Bool :=
  r.keywords.any (fun kw => kwInText text kw)

/-- The keyword of the rule recorded in the log: the first keyword of the
rule that occurs in the text. -/
def matchedKeyword (text : String) (r : AutoResponderRule) : Option String :=
  r.keywords.find? (fun kw => kwInText text kw)

/-- Modelled from the spec: the Auto-Responder Engine (backend code not
under src/). Restrict to active rules of the conversation owner, sort by
descending priority then ascending id. -/
def activeRulesSorted (ownerId : Nat) (rules : List AutoResponderRule) :
    List AutoResponderRule :=
  List.insertionSort RuleOrder
    (rules.filter (fun r => r.is_active && r.user_id == ownerId))

/-- Modelled from the spec: evaluate the rules in order and fire on the
first rule some keyword of which occurs case-insensitively in the text;
returns none when no active rule of the owner matches. -/
def evalAutoResponder (ownerId : Nat) (rules : List AutoResponderRule) (text : String) :
    Option AutoResponderRule :=
  (activeRulesSorted ownerId rules).find? (ruleMatches text)

/-- Auto-responder log entry, fields from the auto_responder_logs table. -/
structure AutoResponderLog where
  rule_id : Nat
  conversation_id : Nat
  incoming_message_id : Nat
  outgoing_message_id : Option Nat
  matched_keyword : String
deriving DecidableEq

/-- Modelled from the spec: the log entries written for one incoming
message; one entry when a rule fires, none otherwise. -/
def fireLogs (ownerId : Nat) (rules : List AutoResponderRule) (text : String)
    (convId inMsgId : Nat) (outMsgId : Option Nat) : List AutoResponderLog :=
  match evalAutoResponder ownerId rules text with
  | none => []
  | some r =>
    [{ rule_id := r.id
       conversation_id := convId
       incoming_message_id := inMsgId
       outgoing_message_id := outMsgId
       matched_keyword := (matchedKeyword text r).getD "" }]

/-! Frontend rule modal, from handleSubmit in
    src/src/components/AutoResponder/AutoResponderModal.tsx lines 94-159. -/

/-- Validation errors raised by handleSubmit, in source order. -/
inductive RuleUiError
  | noKeywords
  | noResponse
deriving DecidableEq

/-- Payload sent to autoResponderAPI.createRule on the success path. -/
structure RulePayload where
  name : String
  keywords : List String
  response_text : String
  language : String
  priority : Int
  is_active : Bool
deriving DecidableEq

/-- The keywords kept by handleSubmit: keywords.filter(k bar k.trim() not
empty), i.e. the non-blank ones. -/
def validKeywords (keywords : List String) : List String :=
  keywords.filter (fun k => !isBlank k)

/-- Embedding of handleSubmit from AutoResponderModal.tsx: rejects when no
non-blank keyword remains, then when the response text is blank; otherwise
produces the create payload with the filtered keywords. -/
def handleSubmit (name : String) (keywords : List String) (responseText : String)
    (language : String) (priority : Int) (isActive : Bool) :
    Except RuleUiError RulePayload :=
  if validKeywords keywords = [] then Except.error RuleUiError.noKeywords
  else if isBlank responseText then Except.error RuleUiError.noResponse
  else Except.ok
    { name := trimStr name
      keywords := validKeywords keywords
      response_text := trimStr responseText
      language := language
      priority := priority
      is_active := isActive }

/-- Rule store after a successful create: the new payload is appended. -/
def addRule (store : List RulePayload) (p : RulePayload) : List RulePayload :=
  store ++ [p]

/-! Message pipeline: message type enum from src/backend/database/schema.sql
    lines 54-59, frontend union from src/src/types/index.ts line 29, ingest
    behaviour from spec section 4.2. -/

/-- The message_type enum of the persistence schema, constructors exactly
as in schema.sql lines 54-59. -/
inductive MessageType
  | text
  | photo
  | video
  | voice
  | document
  | sticker
  | system
deriving DecidableEq

/-- SQL label of each message_type constructor. -/
def MessageType.label : MessageType → String
  | MessageType.text => "text"
  | MessageType.photo => "photo"
  | MessageType.video => "video"
  | MessageType.voice => "voice"
  | MessageType.document => "document"
  | MessageType.sticker => "sticker"
  | MessageType.system => "system"

/-- The labels admitted by the message_type enum in schema.sql. -/
def schemaMessageTypes : List String :=
  ["text", "photo", "video", "voice", "document", "sticker", "system"]

/-- The type union of TelegramMessage in src/src/types/index.ts line 29. -/
def frontendMessageTypes : List String :=
  ["text", "photo", "video", "voice", "document", "system"]

/-- The type union of Message in src/admin/src/types/index.ts line 44. -/
def adminMessageTypes : List String :=
  ["text", "photo", "video", "voice", "document", "sticker", "system", "auto_reply"]

/-- The type set asserted by the specification for persisted messages. -/
def specClaimedMessageTypes : List String :=
  ["text", "photo", "video", "voice", "document", "system", "auto_reply"]

/-- Inbound transport event as observed by the Connection Worker, from the
event stream of spec section 6, reduced to the fields the pipeline uses. -/
structure InEvent where
  conv : Nat
  etype : MessageType
  text : String
deriving DecidableEq

/-- Persisted message row, fields from the messages table in schema.sql
lines 62-76 that the pipeline claims concern. created_at is a Nat tick. -/
structure Msg where
  conversation_id : Nat
  type : MessageType
  original_text : String
  translated_text : Option String
  created_at : Nat
deriving DecidableEq

/-- Modelled from the spec: ingest of one inbound event (backend pipeline
code not under src/). The message is persisted whether or not translation
succeeded; a translation failure (none) is recorded as translated_text =
none. created_at is the persistence tick. -/
def ingestOne (translate : String → Option String) (tick : Nat) (e : InEvent) : Msg :=
  { conversation_id := e.conv
    type := e.etype
    original_text := e.text
    translated_text := translate e.text
    created_at := tick }

/-- Modelled from the spec: the Connection Worker processes its inbound
events strictly sequentially; each event is persisted at the next tick. -/
def ingestAll (translate : String → Option String) : Nat → List InEvent → List Msg
  | _, [] => []
  | tick, e :: es => ingestOne translate tick e :: ingestAll translate (tick + 1) es

/-- Persisting a message appends it to the message store; no existing row
is touched. -/
def persistMsg (store : List Msg) (m : Msg) : List Msg :=
  store ++ [m]

/-- Embedding of sortedMessages from src/src/components/Chat/ChatWindow.tsx
lines 494-497: the displayed list is the message list sorted by created_at. -/
def sortedMessages (msgs : List Msg) : List Msg :=
  List.insertionSort (fun a b => a.created_at ≤ b.created_at) msgs

/-! Client socket layer, embedding useSocket in src/src/hooks/useSocket.ts. -/

/-- WebSocket readyState values. -/
inductive ReadyState
  | connecting
  | opened
  | closing
  | closed
deriving DecidableEq

/-- State of the useSocket hook: wsPresent models wsRef.current being
non-null, heartbeatActive models the interval installed by ws.onopen being
live, pingsSent counts heartbeat pings, framesSent the frames written by
sendMessage. -/
structure SocketState where
  wsPresent : Bool
  readyState : ReadyState
  heartbeatActive : Bool
  pingsSent : Nat
  framesSent : List String
deriving DecidableEq

/-- Events acting on the hook state: the connect effect body, the onopen
handler, one 30-second heartbeat interval callback, the close handler, and
a sendMessage call. -/
inductive SocketEvent
  | setup (tokenPresent : Bool)
  | onOpen
  | heartbeatTick
  | onClose
  | send (data : String)
deriving DecidableEq

/-- The heartbeat interval constant of useSocket.ts line 21, in
milliseconds. -/
def heartbeatIntervalMs : Nat := 30000

/-- The heartbeat frame sent by useSocket.ts line 19. -/
def pingFrame : String := "\x7b\"type\":\"ping\"\x7d"

/-- The heartbeat reply frame documented in ARCHITECTURE.md. -/
def pongFrame : String := "\x7b\"type\":\"pong\"\x7d"

/-- Transition function of the hook state, read off useSocket.ts:
setup opens a socket only when a token is present and none is held (line
11); onOpen starts the heartbeat; a heartbeat tick sends a ping only while
the socket is OPEN (line 18); close clears the interval (line 24) and nulls
the ref (line 43); sendMessage transmits only when a socket is held and
OPEN (line 66) and otherwise changes nothing. -/
def stepSocket (s : SocketState) : SocketEvent → SocketState
  | SocketEvent.setup tokenPresent =>
    if tokenPresent && !s.wsPresent then
      { s with wsPresent := true, readyState := ReadyState.connecting }
    else s
  | SocketEvent.onOpen =>
    if s.wsPresent then { s with readyState := ReadyState.opened, heartbeatActive := true }
    else s
  | SocketEvent.heartbeatTick =>
    if s.heartbeatActive && s.readyState == ReadyState.opened then
      { s with pingsSent := s.pingsSent + 1 }
    else s
  | SocketEvent.onClose =>
    { s with heartbeatActive := false, wsPresent := false, readyState := ReadyState.closed }
  | SocketEvent.send data =>
    if s.wsPresent && s.readyState == ReadyState.opened then
      { s with framesSent := s.framesSent ++ [data] }
    else s

/-- Run a sequence of socket events. -/
def runSocket (s : SocketState) (evs : List SocketEvent) : SocketState :=
  evs.foldl stepSocket s

/-- Modelled from the spec: the server side of the heartbeat (the WebSocket
endpoint is not under src/); a ping frame is answered with a pong frame, as
documented in ARCHITECTURE.md lines 989-1003. -/
def serverReply (frame : String) : Option String :=
  if frame = pingFrame then some pongFrame else none

/-! Theorems. Helper lemmas come first; each claim has exactly one theorem
    (plus a witness when the theorem carries hypotheses). -/

theorem status_pending_iff (m : ScheduledMessage) :
    m.status = SchedStatus.Pending ↔ m.is_sent = false ∧ m.is_cancelled = false := by
  unfold ScheduledMessage.status
  cases hs : m.is_sent <;> cases hc : m.is_cancelled <;> simp [hs, hc]

theorem sweepFire_ok_iff {now : Nat} {m m' : ScheduledMessage} :
    sweepFire now m = Except.ok m' ↔
      m.status = SchedStatus.Pending ∧ m.scheduled_at ≤ now ∧
        m' = { m with is_sent := true, sent_at := some now } := by
  unfold sweepFire
  by_cases h : m.status = SchedStatus.Pending ∧ m.scheduled_at ≤ now
  · simp only [if_pos h, Except.ok.injEq]
    constructor
    · intro he; exact ⟨h.1, h.2, he.symm⟩
    · intro he; exact he.2.2.symm
  · simp only [if_neg h]
    constructor
    · intro he; exact Except.noConfusion he
    · intro he; exact absurd ⟨he.1, he.2.1⟩ h

theorem cancelScheduled_ok_iff {now : Nat} {m m' : ScheduledMessage} :
    cancelScheduled now m = Except.ok m' ↔
      m.status = SchedStatus.Pending ∧
        m' = { m with is_cancelled := true, cancelled_at := some now } := by
  unfold cancelScheduled
  by_cases h : m.status = SchedStatus.Pending
  · simp only [if_pos h, Except.ok.injEq]
    constructor
    · intro he; exact ⟨h, he.symm⟩
    · intro he; exact he.2.symm
  · simp only [if_neg h]
    constructor
    · intro he; exact Except.noConfusion he
    · intro he; exact absurd he.1 h

theorem schedStep_src_pending {m m' : ScheduledMessage} (h : SchedStep m m') :
    m.status = SchedStatus.Pending := by
  rcases h with ⟨now, h⟩ | ⟨now, h⟩
  · exact (sweepFire_ok_iff.mp h).1
  · exact (cancelScheduled_ok_iff.mp h).1

theorem schedStep_target {m m' : ScheduledMessage} (h : SchedStep m m') :
    (m'.is_sent = true ∧ m'.is_cancelled = false)
      ∨ (m'.is_sent = false ∧ m'.is_cancelled = true) := by
  rcases h with ⟨now, h⟩ | ⟨now, h⟩
  · obtain ⟨hp, _, rfl⟩ := sweepFire_ok_iff.mp h
    exact Or.inl ⟨rfl, ((status_pending_iff m).mp hp).2⟩
  · obtain ⟨hp, rfl⟩ := cancelScheduled_ok_iff.mp h
    exact Or.inr ⟨((status_pending_iff m).mp hp).1, rfl⟩

theorem flags_not_pending {m : ScheduledMessage}
    (h : m.is_sent = true ∨ m.is_cancelled = true) :
    m.status ≠ SchedStatus.Pending := by
  intro hp
  have hf := (status_pending_iff m).mp hp
  rcases h with h | h
  · rw [h] at hf; exact absurd hf.1 (by simp)
  · rw [h] at hf; exact absurd hf.2 (by simp)

theorem no_step_of_terminal {m : ScheduledMessage}
    (h : m.status ≠ SchedStatus.Pending) : ∀ m', ¬ SchedStep m m' :=
  fun _ hst => h (schedStep_src_pending hst)

/-- C1: every ScheduledMessage transition goes from a Pending record to
exactly one of the two terminal states (is_sent set by a sweep fire, or
is_cancelled set by a manual or automatic cancel); Sent and Cancelled are
mutually exclusive; no transition leaves a terminal state, so along the
reflexive-transitive closure of the transition relation at most one
transition ever occurs. -/
theorem scheduled_message_single_terminal_transition
    (m m' : ScheduledMessage) (hreach : SchedReachable m m') :
    m = m' ∨
      (m.status = SchedStatus.Pending ∧ SchedStep m m'
        ∧ ((m'.is_sent = true ∧ m'.is_cancelled = false)
            ∨ (m'.is_sent = false ∧ m'.is_cancelled = true))
        ∧ ∀ m'', ¬ SchedStep m' m'') := by
  rcases Relation.ReflTransGen.cases_head hreach with rfl | ⟨c, hst, hrest⟩
  · exact Or.inl rfl
  · right
    have hp := schedStep_src_pending hst
    have htgt := schedStep_target hst
    have hterm : c.status ≠ SchedStatus.Pending := by
      refine flags_not_pending ?_
      rcases htgt with ⟨h, _⟩ | ⟨_, h⟩
      · exact Or.inl h
      · exact Or.inr h
    have hcm : c = m' := by
      rcases Relation.ReflTransGen.cases_head hrest with rfl | ⟨d, hst2, _⟩
      · rfl
      · exact absurd (schedStep_src_pending hst2) hterm
    subst hcm
    exact ⟨hp, hst, htgt, no_step_of_terminal hterm⟩

/-- Concrete pending record used by the witnesses. -/
def schedEx : ScheduledMessage :=
  { id := 1
    conversation_id := 7
    message_text := "Following up"
    scheduled_at := 100
    created_at := 0
    is_sent := false
    is_cancelled := false
    sent_at := none
    cancelled_at := none }

/-- The record schedEx after the sweep fires it at time 100. -/
def schedExSent : ScheduledMessage :=
  { schedEx with is_sent := true, sent_at := some 100 }

theorem scheduled_message_single_terminal_transition_witness :
    schedEx = schedExSent ∨
      (schedEx.status = SchedStatus.Pending ∧ SchedStep schedEx schedExSent
        ∧ ((schedExSent.is_sent = true ∧ schedExSent.is_cancelled = false)
            ∨ (schedExSent.is_sent = false ∧ schedExSent.is_cancelled = true))
        ∧ ∀ m'', ¬ SchedStep schedExSent m'') :=
  scheduled_message_single_terminal_transition schedEx schedExSent
    (Relation.ReflTransGen.single (Or.inl ⟨100, rfl⟩))

/-- C4: store-level cancel on a record already in a terminal state returns
StateConflictError and returns the store verbatim (no field of any record
is mutated on the error path); the record-level cancel transition succeeds
only from Pending. -/
theorem cancelScheduled_terminal_state_conflict
    (now msgId : Nat) (store : List ScheduledMessage) (m : ScheduledMessage)
    (hfind : store.find? (fun x => x.id == msgId) = some m)
    (hterm : m.status ≠ SchedStatus.Pending) :
    cancelScheduledMessage now msgId store = (Except.error SchedError.stateConflict, store)
    ∧ ∀ now' m', cancelScheduled now' m = Except.ok m' → m.status = SchedStatus.Pending := by
  constructor
  · simp only [cancelScheduledMessage, hfind]
    rw [if_neg hterm]
  · intro now' m' h
    exact (cancelScheduled_ok_iff.mp h).1

theorem cancelScheduled_terminal_state_conflict_witness :
    cancelScheduledMessage 200 1 [schedExSent]
        = (Except.error SchedError.stateConflict, [schedExSent])
    ∧ ∀ now' m', cancelScheduled now' schedExSent = Except.ok m'
        → schedExSent.status = SchedStatus.Pending :=
  cancelScheduled_terminal_state_conflict 200 1 [schedExSent] schedExSent rfl (by decide)

/-- C5: handleSchedule rejects every delay at most 0, so no create call is
issued for such a delay; every accepted call carries a strictly positive
delay; and the modelled backend create persists fire_at = now + delay with
status Pending. -/
theorem scheduleSend_rejects_nonpositive_delay
    (cid : Option Nat) (text : String) (d : Int) (hd : d ≤ 0) :
    (∀ p, handleSchedule cid text d ≠ Except.ok p)
    ∧ (∀ cid' text' d' p, handleSchedule cid' text' d' = Except.ok p → 0 < p.daysDelay)
    ∧ (∀ now newId c t delay,
        (createScheduled now newId c t delay).scheduled_at = now + delay
          ∧ (createScheduled now newId c t delay).status = SchedStatus.Pending) := by
  refine ⟨?_, ?_, ?_⟩
  · intro p h
    cases cid with
    | none => simp [handleSchedule] at h
    | some c =>
      simp only [handleSchedule] at h
      by_cases hb : isBlank text
      · rw [if_pos hb] at h
        exact Except.noConfusion h
      · rw [if_neg hb, if_pos (by omega : d < 1)] at h
        exact Except.noConfusion h
  · intro cid' text' d' p h
    cases cid' with
    | none => simp [handleSchedule] at h
    | some c =>
      simp only [handleSchedule] at h
      by_cases hb : isBlank text'
      · rw [if_pos hb] at h
        exact Except.noConfusion h
      · rw [if_neg hb] at h
        by_cases hd' : d' < 1
        · rw [if_pos hd'] at h
          exact Except.noConfusion h
        · rw [if_neg hd'] at h
          have hp : p.daysDelay = d' := by
            cases h
            rfl
          omega
  · intro now newId c t delay
    exact ⟨rfl, rfl⟩

theorem scheduleSend_rejects_nonpositive_delay_witness :
    (∀ p, handleSchedule (some 7) "Following up" 0 ≠ Except.ok p)
    ∧ (∀ cid' text' d' p, handleSchedule cid' text' d' = Except.ok p → 0 < p.daysDelay)
    ∧ (∀ now newId c t delay,
        (createScheduled now newId c t delay).scheduled_at = now + delay
          ∧ (createScheduled now newId c t delay).status = SchedStatus.Pending) :=
  scheduleSend_rejects_nonpositive_delay (some 7) "Following up" 0 (by decide)

theorem ruleOrder_refl (r : AutoResponderRule) : RuleOrder r r :=
  Or.inr ⟨rfl, le_refl _⟩

theorem find?_min_of_pairwise {α : Type} {R : α → α → Prop} {p : α → Bool}
    (hrefl : ∀ a, R a a) :
    ∀ (L : List α), L.Pairwise R → ∀ r, L.find? p = some r →
      p r = true ∧ ∀ x ∈ L, p x = true → R r x := by
  intro L
  induction L with
  | nil => intro _ r h; exact Option.noConfusion h
  | cons a t ih =>
    intro hpw r hfind
    rcases List.pairwise_cons.mp hpw with ⟨hall, htail⟩
    by_cases hpa : p a = true
    · rw [List.find?_cons_of_pos _ hpa] at hfind
      cases hfind
      refine ⟨hpa, ?_⟩
      intro x hx _
      rcases List.mem_cons.mp hx with rfl | hxt
      · exact hrefl _
      · exact hall x hxt
    · rw [List.find?_cons_of_neg _ hpa] at hfind
      rcases ih htail r hfind with ⟨hp, hmin⟩
      refine ⟨hp, ?_⟩
      intro x hx hpx
      rcases List.mem_cons.mp hx with rfl | hxt
      · exact absurd hpx hpa
      · exact hmin x hxt hpx

theorem activeRulesSorted_pairwise (ownerId : Nat) (rules : List AutoResponderRule) :
    (activeRulesSorted ownerId rules).Pairwise RuleOrder :=
  List.sorted_insertionSort RuleOrder _

theorem mem_activeRulesSorted_iff {ownerId : Nat} {rules : List AutoResponderRule}
    {r : AutoResponderRule} :
    r ∈ activeRulesSorted ownerId rules ↔
      r ∈ rules ∧ r.is_active = true ∧ r.user_id = ownerId := by
  unfold activeRulesSorted
  rw [List.Perm.mem_iff (List.perm_insertionSort _ _), List.mem_filter]
  constructor
  · intro ⟨hm, hp⟩
    simp only [Bool.and_eq_true, beq_iff_eq] at hp
    exact ⟨hm, hp.1, hp.2⟩
  · intro ⟨hm, ha, ho⟩
    exact ⟨hm, by simp [ha, ho]⟩

/-- C3: when the auto-responder fires on an incoming text it fires an
active rule of the conversation owner that matches by case-insensitive
keyword substring, that rule is first in descending-priority then
ascending-id order among all matching active rules of the owner, and at
most one AutoResponderLog entry (hence at most one auto-reply) is produced
for the incoming message. -/
theorem auto_responder_first_match_single_reply
    (ownerId : Nat) (rules : List AutoResponderRule) (text : String)
    (r : AutoResponderRule) (h : evalAutoResponder ownerId rules text = some r) :
    r ∈ rules ∧ r.is_active = true ∧ r.user_id = ownerId
    ∧ ruleMatches text r = true
    ∧ (∀ r' ∈ rules, r'.is_active = true → r'.user_id = ownerId →
        ruleMatches text r' = true → RuleOrder r r')
    ∧ (∀ convId inMsgId outMsgId,
        (fireLogs ownerId rules text convId inMsgId outMsgId).length ≤ 1) := by
  simp only [evalAutoResponder] at h
  have hmem : r ∈ activeRulesSorted ownerId rules := List.mem_of_find?_eq_some h
  obtain ⟨hrl, hact, howner⟩ := mem_activeRulesSorted_iff.mp hmem
  obtain ⟨hp, hmin⟩ :=
    find?_min_of_pairwise ruleOrder_refl _ (activeRulesSorted_pairwise ownerId rules) r h
  refine ⟨hrl, hact, howner, hp, ?_, ?_⟩
  · intro r' hr' ha' ho' hm'
    exact hmin r' (mem_activeRulesSorted_iff.mpr ⟨hr', ha', ho'⟩) hm'
  · intro convId inMsgId outMsgId
    simp [fireLogs, evalAutoResponder, h]

/-- Scenario rules from spec section 8: two active rules of one owner, the
higher-priority one carrying keywords price and cost. -/
def ruleHigh : AutoResponderRule :=
  { id := 1
    user_id := 42
    name := "pricing"
    keywords := ["price", "cost"]
    response_text := "Our price list is attached"
    media_type := none
    media_file_path := none
    is_active := true
    priority := 5 }

/-- Scenario rule with keyword price at priority 1. -/
def ruleLow : AutoResponderRule :=
  { id := 2
    user_id := 42
    name := "pricing low"
    keywords := ["price"]
    response_text := "See pricing page"
    media_type := none
    media_file_path := none
    is_active := true
    priority := 1 }

theorem auto_responder_first_match_single_reply_witness :
    ruleHigh ∈ [ruleLow, ruleHigh] ∧ ruleHigh.is_active = true ∧ ruleHigh.user_id = 42
    ∧ ruleMatches "what is the PRICE?" ruleHigh = true
    ∧ (∀ r' ∈ [ruleLow, ruleHigh], r'.is_active = true → r'.user_id = 42 →
        ruleMatches "what is the PRICE?" r' = true → RuleOrder ruleHigh r')
    ∧ (∀ convId inMsgId outMsgId,
        (fireLogs 42 [ruleLow, ruleHigh] "what is the PRICE?" convId inMsgId outMsgId).length ≤ 1) :=
  auto_responder_first_match_single_reply 42 [ruleLow, ruleHigh] "what is the PRICE?" ruleHigh
    (by decide)

theorem ingestAll_created_at_ge (translate : String → Option String) :
    ∀ (tick : Nat) (es : List InEvent), ∀ m ∈ ingestAll translate tick es,
      tick ≤ m.created_at := by
  intro tick es
  induction es generalizing tick with
  | nil => intro m hm; simp [ingestAll] at hm
  | cons e es ih =>
    intro m hm
    simp only [ingestAll, List.mem_cons] at hm
    rcases hm with rfl | hm'
    · exact le_rfl
    · exact le_trans (Nat.le_succ tick) (ih (tick + 1) m hm')

theorem ingestAll_pairwise_lt (translate : String → Option String) :
    ∀ (tick : Nat) (es : List InEvent),
      (ingestAll translate tick es).Pairwise
        (fun a b : Msg => a.created_at < b.created_at) := by
  intro tick es
  induction es generalizing tick with
  | nil => simp [ingestAll]
  | cons e es ih =>
    simp only [ingestAll]
    refine List.Pairwise.cons ?_ (ih (tick + 1))
    intro b hb
    exact lt_of_lt_of_le (Nat.lt_succ_self tick)
      (ingestAll_created_at_ge translate (tick + 1) es b hb)

theorem ingestAll_filter_map (translate : String → Option String) (c : Nat) :
    ∀ (tick : Nat) (es : List InEvent),
      ((ingestAll translate tick es).filter (fun m => m.conversation_id == c)).map
          (fun m => m.original_text)
        = (es.filter (fun e => e.conv == c)).map (fun e => e.text) := by
  intro tick es
  induction es generalizing tick with
  | nil => rfl
  | cons e es ih =>
    simp only [ingestAll, List.filter_cons]
    have hsc : ((ingestOne translate tick e).conversation_id == c) = (e.conv == c) := rfl
    rw [hsc]
    by_cases hc : (e.conv == c) = true
    · rw [if_pos hc, if_pos hc, List.map_cons, ih (tick + 1)]
      rfl
    · rw [if_neg hc, if_neg hc, ih (tick + 1)]

/-- C2: the persisted messages of one conversation are totally ordered by
creation: for any conversation c, the created_at values of the ingest run
restricted to c are (strictly, hence non-decreasingly) increasing and the
restricted message sequence carries the original texts in exactly the
order the triggering events were observed, whatever the translation
results were; displaying the run through sortedMessages (the ChatWindow
sort by created_at) changes nothing. -/
theorem conversation_messages_ordered
    (translate : String → Option String) (tick : Nat) (es : List InEvent) (c : Nat) :
    ((ingestAll translate tick es).filter (fun m => m.conversation_id == c)).Pairwise
        (fun a b => a.created_at ≤ b.created_at)
    ∧ ((ingestAll translate tick es).filter (fun m => m.conversation_id == c)).map
          (fun m => m.original_text)
        = (es.filter (fun e => e.conv == c)).map (fun e => e.text)
    ∧ sortedMessages (ingestAll translate tick es) = ingestAll translate tick es := by
  refine ⟨?_, ingestAll_filter_map translate c tick es, ?_⟩
  · refine List.Pairwise.imp (fun h => le_of_lt h) ?_
    exact List.Pairwise.sublist (List.filter_sublist _) (ingestAll_pairwise_lt translate tick es)
  · exact List.Sorted.insertionSort_eq
      (List.Pairwise.imp (fun h => le_of_lt h) (ingestAll_pairwise_lt translate tick es))

/-- C8: a translation failure is non-fatal on ingest: every observed event
is persisted (run length equals event count and original texts are kept in
order), the translated_text of each persisted message is exactly the
translation result for its event, so a failed translation is persisted as
none, and all later events are still persisted. -/
theorem translation_failure_nonfatal
    (translate : String → Option String) (tick : Nat) (es : List InEvent) :
    (ingestAll translate tick es).length = es.length
    ∧ (ingestAll translate tick es).map (fun m => m.original_text)
        = es.map (fun e => e.text)
    ∧ (ingestAll translate tick es).map (fun m => m.translated_text)
        = es.map (fun e => translate e.text) := by
  refine ⟨?_, ?_, ?_⟩
  all_goals
    induction es generalizing tick with
    | nil => rfl
    | cons e es ih =>
      simp only [ingestAll, List.length_cons, List.map_cons, ih (tick + 1)]
      try rfl

theorem validKeywords_eq_nil_iff (ks : List String) :
    validKeywords ks = [] ↔ ∀ k ∈ ks, isBlank k = true := by
  unfold validKeywords
  rw [List.filter_eq_nil_iff]
  constructor
  · intro h k hk
    have := h k hk
    simpa using this
  · intro h k hk
    simp [h k hk]

theorem handleSubmit_ok_keywords
    {n : String} {ks : List String} {resp lang : String} {prio : Int} {act : Bool}
    {payload : RulePayload} (h : handleSubmit n ks resp lang prio act = Except.ok payload) :
    payload.keywords ≠ [] ∧ ∀ k ∈ payload.keywords, isBlank k = false := by
  unfold handleSubmit at h
  by_cases h0 : validKeywords ks = []
  · rw [if_pos h0] at h
    exact Except.noConfusion h
  · rw [if_neg h0] at h
    by_cases h1 : isBlank resp
    · rw [if_pos h1] at h
      exact Except.noConfusion h
    · rw [if_neg h1] at h
      cases h
      refine ⟨h0, ?_⟩
      intro k hk
      have := (List.mem_filter.mp hk).2
      simpa using this

/-- C6: creating an auto-responder rule with no non-blank keyword fails:
handleSubmit returns the validation error and issues no create call; every
accepted create payload carries a non-empty keyword list of non-blank
keywords; and a rule store all of whose rules have non-empty keyword sets
keeps that invariant under any accepted create. -/
theorem rule_create_requires_keyword
    (n : String) (ks : List String) (resp lang : String) (prio : Int) (act : Bool)
    (hall : ∀ k ∈ ks, isBlank k = true) :
    handleSubmit n ks resp lang prio act = Except.error RuleUiError.noKeywords
    ∧ (∀ n2 ks2 r2 l2 p2 a2 (payload : RulePayload),
        handleSubmit n2 ks2 r2 l2 p2 a2 = Except.ok payload →
          payload.keywords ≠ [] ∧ ∀ k ∈ payload.keywords, isBlank k = false)
    ∧ (∀ (store : List RulePayload) (payload : RulePayload),
        (∀ q ∈ store, q.keywords ≠ []) →
        (∃ n2 ks2 r2 l2 p2 a2, handleSubmit n2 ks2 r2 l2 p2 a2 = Except.ok payload) →
        ∀ q ∈ addRule store payload, q.keywords ≠ []) := by
  refine ⟨?_, ?_, ?_⟩
  · unfold handleSubmit
    rw [if_pos ((validKeywords_eq_nil_iff ks).mpr hall)]
  · intro n2 ks2 r2 l2 p2 a2 payload h
    exact handleSubmit_ok_keywords h
  · intro store payload hstore hok q hq
    rcases List.mem_append.mp hq with hq' | hq'
    · exact hstore q hq'
    · rcases hok with ⟨n2, ks2, r2, l2, p2, a2, h⟩
      rcases List.mem_singleton.mp hq' with rfl
      exact (handleSubmit_ok_keywords h).1

theorem rule_create_requires_keyword_witness :
    handleSubmit "greeting" ["", "   "] "hi there" "en" 0 true
        = Except.error RuleUiError.noKeywords
    ∧ (∀ n2 ks2 r2 l2 p2 a2 (payload : RulePayload),
        handleSubmit n2 ks2 r2 l2 p2 a2 = Except.ok payload →
          payload.keywords ≠ [] ∧ ∀ k ∈ payload.keywords, isBlank k = false)
    ∧ (∀ (store : List RulePayload) (payload : RulePayload),
        (∀ q ∈ store, q.keywords ≠ []) →
        (∃ n2 ks2 r2 l2 p2 a2, handleSubmit n2 ks2 r2 l2 p2 a2 = Except.ok payload) →
        ∀ q ∈ addRule store payload, q.keywords ≠ []) :=
  rule_create_requires_keyword "greeting" ["", "   "] "hi there" "en" 0 true (by decide)

/-- C7, counterexample: the type set asserted by the claim does not match
the persistence schema. The schema enum message_type admits sticker, which
the claimed set lacks, while the claimed member auto_reply is not a value
of the schema enum nor of the main frontend type union. -/
theorem message_type_set_counterexample :
    MessageType.sticker.label ∈ schemaMessageTypes
    ∧ MessageType.sticker.label ∉ specClaimedMessageTypes
    ∧ "auto_reply" ∈ specClaimedMessageTypes
    ∧ "auto_reply" ∉ schemaMessageTypes
    ∧ "auto_reply" ∉ frontendMessageTypes := by decide

/-- C7 (amended): every persisted message has a type drawn exactly from
the message_type enum of the schema, namely text, photo, video, voice,
document, sticker or system (the claimed auto_reply is not a schema
value), and a message is immutable once persisted: persisting further
messages leaves every already-persisted row unchanged. -/
theorem message_type_schema_and_immutability :
    (∀ m : Msg, m.type.label ∈ schemaMessageTypes)
    ∧ (∀ (store : List Msg) (m : Msg), (persistMsg store m).take store.length = store) := by
  constructor
  · intro m
    cases m.type <;> decide
  · intro store m
    exact List.take_left store [m]

theorem no_ping_after_close (evs : List SocketEvent) :
    ∀ s : SocketState, s.heartbeatActive = false → s.wsPresent = false →
      (∀ b, SocketEvent.setup b ∉ evs) →
      (runSocket s evs).pingsSent = s.pingsSent := by
  induction evs with
  | nil => intro s _ _ _; rfl
  | cons e evs ih =>
    intro s hhb hws hns
    have hns' : ∀ b, SocketEvent.setup b ∉ evs :=
      fun b hb => hns b (List.mem_cons_of_mem _ hb)
    cases e with
    | setup b => exact absurd (List.mem_cons_self _ _) (hns b)
    | onOpen =>
      have h1 : stepSocket s SocketEvent.onOpen = s := by
        simp [stepSocket, hws]
      show (runSocket (stepSocket s SocketEvent.onOpen) evs).pingsSent = s.pingsSent
      rw [h1]
      exact ih s hhb hws hns'
    | heartbeatTick =>
      have h1 : stepSocket s SocketEvent.heartbeatTick = s := by
        simp [stepSocket, hhb]
      show (runSocket (stepSocket s SocketEvent.heartbeatTick) evs).pingsSent = s.pingsSent
      rw [h1]
      exact ih s hhb hws hns'
    | onClose =>
      show (runSocket (stepSocket s SocketEvent.onClose) evs).pingsSent = s.pingsSent
      exact ih _ rfl rfl hns'
    | send d =>
      have h1 : stepSocket s (SocketEvent.send d) = s := by
        simp [stepSocket, hws]
      show (runSocket (stepSocket s (SocketEvent.send d)) evs).pingsSent = s.pingsSent
      rw [h1]
      exact ih s hhb hws hns'

/-- C9: the client heartbeat of useSocket.ts: the interval constant is
30000 ms (30 seconds); while the heartbeat interval is installed and the
socket is OPEN, each interval callback sends exactly one ping frame; the
modelled server answers a ping frame with a pong frame; and once the close
handler has cleared the interval, no later event of the same connection
(a trace with no new connect effect) ever sends another ping. -/
theorem heartbeat_protocol
    (s : SocketState) (hact : s.heartbeatActive = true)
    (hopen : s.readyState = ReadyState.opened) :
    heartbeatIntervalMs = 30000
    ∧ (stepSocket s SocketEvent.heartbeatTick).pingsSent = s.pingsSent + 1
    ∧ serverReply pingFrame = some pongFrame
    ∧ (∀ evs, (∀ b, SocketEvent.setup b ∉ evs) →
        (runSocket (stepSocket s SocketEvent.onClose) evs).pingsSent
          = (stepSocket s SocketEvent.onClose).pingsSent) := by
  refine ⟨rfl, ?_, rfl, ?_⟩
  · simp [stepSocket, hact, hopen]
  · intro evs hns
    exact no_ping_after_close evs _ rfl rfl hns

/-- Concrete open socket state used by the witnesses. -/
def sockOpenEx : SocketState :=
  { wsPresent := true
    readyState := ReadyState.opened
    heartbeatActive := true
    pingsSent := 0
    framesSent := [] }

/-- Concrete state with no socket held, used by the witnesses. -/
def sockAbsentEx : SocketState :=
  { wsPresent := false
    readyState := ReadyState.closed
    heartbeatActive := false
    pingsSent := 0
    framesSent := [] }

theorem heartbeat_protocol_witness :
    heartbeatIntervalMs = 30000
    ∧ (stepSocket sockOpenEx SocketEvent.heartbeatTick).pingsSent = sockOpenEx.pingsSent + 1
    ∧ serverReply pingFrame = some pongFrame
    ∧ (runSocket (stepSocket sockOpenEx SocketEvent.onClose)
          [SocketEvent.heartbeatTick, SocketEvent.heartbeatTick]).pingsSent
        = (stepSocket sockOpenEx SocketEvent.onClose).pingsSent :=
  have h := heartbeat_protocol sockOpenEx rfl rfl
  ⟨h.1, h.2.1, h.2.2.1,
    h.2.2.2 [SocketEvent.heartbeatTick, SocketEvent.heartbeatTick]
      (by intro b hb; simp at hb)⟩

/-- C10: the useSocket hook holds at most one live socket: the connect
effect opens a new socket only when none is held (when one is held the
effect leaves the state unchanged); and sendMessage is a silent no-op
whenever the socket is absent or not OPEN: the state, including the list
of transmitted frames, is unchanged, and stepSocket being a total function
no error is raised or reported to the caller. -/
theorem socket_single_connection_send_noop :
    (∀ (s : SocketState) (b : Bool), s.wsPresent = true →
        stepSocket s (SocketEvent.setup b) = s)
    ∧ (∀ (s : SocketState) (d : String),
        s.wsPresent = false ∨ s.readyState ≠ ReadyState.opened →
        stepSocket s (SocketEvent.send d) = s) := by
  constructor
  · intro s b h
    simp [stepSocket, h]
  · intro s d h
    rcases h with h | h
    · simp [stepSocket, h]
    · simp [stepSocket, h]

theorem socket_single_connection_send_noop_witness :
    stepSocket sockOpenEx (SocketEvent.setup true) = sockOpenEx
    ∧ stepSocket sockAbsentEx (SocketEvent.send "hello") = sockAbsentEx :=
  ⟨socket_single_connection_send_noop.1 sockOpenEx true rfl,
    socket_single_connection_send_noop.2 sockAbsentEx "hello" (Or.inl rfl)⟩
